import Mathlib

/-!
Shallow embedding of the rust-mario platformer core (src/simple_level.rs and
src/screenshot.rs). Rust `f32` fields are modelled as exact rationals (ℚ);
all game logic is pure arithmetic and comparisons, so the embedding follows
the source line by line. Ambient inputs of the original (keyboard state,
screen size) become explicit parameters.
-/

namespace Mario

/-- Game constants from src/simple_level.rs. -/
def GRAVITY : ℚ := 800

def JUMP_STRENGTH : ℚ := 300

def PLAYER_SPEED : ℚ := 200

def PLAYER_SIZE : ℚ := 20

def PLATFORM_HEIGHT : ℚ := 20

def GOAL_SIZE : ℚ := 30

/-- `Platform` struct: a static rectangular platform. -/
structure Platform where
  x : ℚ
  y : ℚ
  width : ℚ
  height : ℚ
  deriving DecidableEq

/-- `Platform::new`. -/
def Platform.new (x y width height : ℚ) : Platform :=
  { x := x, y := y, width := width, height := height }

/-- `Platform::contains_point`: inclusive bounds test. -/
def Platform.contains_point (p : Platform) (x y : ℚ) : Bool :=
  decide (p.x ≤ x) && decide (x ≤ p.x + p.width) &&
  decide (p.y ≤ y) && decide (y ≤ p.y + p.height)

/-- `Platform::intersects`: strict AABB overlap test against a rectangle. -/
def Platform.intersects (p : Platform) (x y width height : ℚ) : Bool :=
  decide (x < p.x + p.width) && decide (x + width > p.x) &&
  decide (y < p.y + p.height) && decide (y + height > p.y)

/-- `AnimationState` enum. -/
inductive AnimationState where
  | Idle
  | Walking
  | Jumping
  deriving DecidableEq

/-- `Player` struct (drawing-only data included for fidelity). -/
structure Player where
  x : ℚ
  y : ℚ
  velocity_x : ℚ
  velocity_y : ℚ
  on_ground : Bool
  width : ℚ
  height : ℚ
  facing_right : Bool
  animation_state : AnimationState
  animation_timer : ℚ
  deriving DecidableEq

/-- `Player::new`. -/
def Player.new (x y : ℚ) : Player :=
  { x := x, y := y, velocity_x := 0, velocity_y := 0, on_ground := false,
    width := PLAYER_SIZE, height := PLAYER_SIZE, facing_right := true,
    animation_state := AnimationState.Idle, animation_timer := 0 }

/-- `Player::intersects`: strict AABB overlap test (used for goal detection). -/
def Player.intersects (p : Player) (x y width height : ℚ) : Bool :=
  decide (p.x < x + width) && decide (p.x + p.width > x) &&
  decide (p.y < y + height) && decide (p.y + p.height > y)

/-- The keyboard snapshot the original polls through macroquad:
left/right are level-triggered held state, jump is edge-triggered. -/
structure InputState where
  move_left : Bool
  move_right : Bool
  jump_pressed : Bool
  deriving DecidableEq

/-- `Player::handle_input`: horizontal input resolution then jump. -/
def Player.handle_input (p : Player) (input : InputState) : Player :=
  let p1 :=
    if input.move_left then
      { p with velocity_x := -PLAYER_SPEED, facing_right := false }
    else if input.move_right then
      { p with velocity_x := PLAYER_SPEED, facing_right := true }
    else
      { p with velocity_x := 0 }
  if input.jump_pressed && p1.on_ground then
    { p1 with velocity_y := -JUMP_STRENGTH, on_ground := false }
  else p1

/-- Gravity step of `Player::update`: applied only when airborne. -/
def applyGravity (dt : ℚ) (p : Player) : Player :=
  if !p.on_ground then { p with velocity_y := p.velocity_y + GRAVITY * dt } else p

/-- Horizontal collision phase of `Player::update`: the rust loop scans all
platforms at (newX, current y) and breaks at the first hit; commit newX only
when no platform blocks, otherwise zero the horizontal velocity. -/
def horizontalPass (platforms : List Platform) (newX : ℚ) (p : Player) : Player :=
  if platforms.any (fun plat => plat.intersects newX p.y p.width p.height) then
    { p with velocity_x := 0 }
  else
    { p with x := newX }

/-- The vertical collision loop of `Player::update` (lines 137-153): for each
platform intersecting at (resolved x, newY), land on top when falling from at
or above the platform top, or bounce off the bottom when rising from below.
The boolean accumulator is rust's `can_move_y`. -/
def vertLoop (platforms : List Platform) (newY : ℚ) (p : Player) (canMoveY : Bool) :
    Player × Bool :=
  match platforms with
  | [] => (p, canMoveY)
  | plat :: rest =>
    if plat.intersects p.x newY p.width p.height then
      if p.velocity_y > 0 ∧ p.y ≤ plat.y then
        vertLoop rest newY
          { p with y := plat.y - p.height, velocity_y := 0, on_ground := true } false
      else if p.velocity_y < 0 ∧ p.y ≥ plat.y + plat.height then
        vertLoop rest newY { p with y := plat.y + plat.height, velocity_y := 0 } false
      else
        vertLoop rest newY p canMoveY
    else
      vertLoop rest newY p canMoveY

/-- Vertical collision phase of `Player::update`: reset `on_ground`, run the
loop, then commit newY when nothing blocked vertical movement. -/
def verticalPass (platforms : List Platform) (newY : ℚ) (p : Player) : Player :=
  let p1 : Player := { p with on_ground := false }
  let r := vertLoop platforms newY p1 true
  if r.2 && !r.1.on_ground then { r.1 with y := newY } else r.1

/-- Screen boundary clamp of `Player::update` (lines 160-167). -/
def clampX (screenW : ℚ) (p : Player) : Player :=
  let p1 := if p.x < 0 then { p with x := 0, velocity_x := 0 } else p
  if p1.x + p1.width > screenW then
    { p1 with x := screenW - p1.width, velocity_x := 0 }
  else p1

/-- Fall-off-screen reset of `Player::update` (lines 170-175). -/
def fallReset (screenH : ℚ) (p : Player) : Player :=
  if p.y > screenH then
    { p with x := 50, y := 50, velocity_x := 0, velocity_y := 0 }
  else p

/-- Ground friction of `Player::update` (lines 178-180): vx *= 0.8. -/
def applyFriction (p : Player) : Player :=
  if p.on_ground then { p with velocity_x := p.velocity_x * (4 / 5) } else p

/-- `Player::update_animation_state`. -/
def Player.update_animation_state (p : Player) : Player :=
  if !p.on_ground then { p with animation_state := AnimationState.Jumping }
  else if |p.velocity_x| > 10 then { p with animation_state := AnimationState.Walking }
  else { p with animation_state := AnimationState.Idle }

/-- `Player::update`: the full per-tick player step, in source order.
Keyboard state and the screen size (ambient in the original) are parameters. -/
def Player.update (p : Player) (platforms : List Platform) (dt : ℚ)
    (input : InputState) (screenW screenH : ℚ) : Player :=
  let p1 := p.handle_input input
  let p2 := applyGravity dt p1
  let newX := p2.x + p2.velocity_x * dt
  let newY := p2.y + p2.velocity_y * dt
  let p3 := horizontalPass platforms newX p2
  let p4 := verticalPass platforms newY p3
  let p5 := clampX screenW p4
  let p6 := fallReset screenH p5
  let p7 := applyFriction p6
  let p8 : Player := { p7 with animation_timer := p7.animation_timer + dt }
  p8.update_animation_state

/-- `EnemyDirection` enum. -/
inductive EnemyDirection where
  | Left
  | Right
  deriving DecidableEq

/-- `Enemy` struct: a patrol agent. -/
structure Enemy where
  x : ℚ
  y : ℚ
  width : ℚ
  height : ℚ
  direction : EnemyDirection
  speed : ℚ
  patrol_start : ℚ
  patrol_end : ℚ
  deriving DecidableEq

/-- `Enemy::new`. -/
def Enemy.new (x y patrol_start patrol_end : ℚ) : Enemy :=
  { x := x, y := y, width := 16, height := 16,
    direction := EnemyDirection.Right, speed := 30,
    patrol_start := patrol_start, patrol_end := patrol_end }

/-- `Enemy::update`: patrol movement; direction flips at the bounds but the
position is not clamped to them. -/
def Enemy.update (e : Enemy) (dt : ℚ) : Enemy :=
  match e.direction with
  | EnemyDirection.Right =>
    let x1 := e.x + e.speed * dt
    if x1 ≥ e.patrol_end then { e with x := x1, direction := EnemyDirection.Left }
    else { e with x := x1 }
  | EnemyDirection.Left =>
    let x1 := e.x - e.speed * dt
    if x1 ≤ e.patrol_start then { e with x := x1, direction := EnemyDirection.Right }
    else { e with x := x1 }

/-- `Enemy::intersects`: strict AABB overlap test. -/
def Enemy.intersects (e : Enemy) (x y width height : ℚ) : Bool :=
  decide (x < e.x + e.width) && decide (x + width > e.x) &&
  decide (y < e.y + e.height) && decide (y + height > e.y)

/-- `Goal` struct. -/
structure Goal where
  x : ℚ
  y : ℚ
  width : ℚ
  height : ℚ
  deriving DecidableEq

/-- `Goal::new`: fixed 30x60 size. -/
def Goal.new (x y : ℚ) : Goal :=
  { x := x, y := y, width := GOAL_SIZE, height := GOAL_SIZE * 2 }

/-- `Tree` struct (decorative, never updated). -/
structure Tree where
  x : ℚ
  y : ℚ
  height : ℚ
  deriving DecidableEq

/-- `SimpleLevel` struct: the whole world state. -/
structure SimpleLevel where
  player : Player
  platforms : List Platform
  goal : Goal
  trees : List Tree
  enemies : List Enemy
  game_won : Bool
  camera_x : ℚ
  deriving DecidableEq

/-- `SimpleLevel::new`: the hard-coded level layout. -/
def SimpleLevel.new : SimpleLevel :=
  { player := Player.new 50 50,
    platforms :=
      [Platform.new 0 400 200 PLATFORM_HEIGHT,
       Platform.new 250 450 150 PLATFORM_HEIGHT,
       Platform.new 450 350 100 PLATFORM_HEIGHT,
       Platform.new 600 300 120 PLATFORM_HEIGHT,
       Platform.new 750 250 100 PLATFORM_HEIGHT,
       Platform.new 200 300 80 PLATFORM_HEIGHT,
       Platform.new 350 200 80 PLATFORM_HEIGHT,
       Platform.new 500 150 80 PLATFORM_HEIGHT,
       Platform.new 850 200 100 PLATFORM_HEIGHT],
    goal := Goal.new 870 140,
    trees := [⟨100, 400, 40⟩, ⟨300, 450, 35⟩, ⟨520, 350, 45⟩,
              ⟨700, 250, 38⟩, ⟨950, 200, 42⟩],
    enemies := [Enemy.new 220 (400 - 16) 210 380,
                Enemy.new 470 (350 - 16) 460 540,
                Enemy.new 620 (300 - 16) 610 710],
    game_won := false,
    camera_x := 0 }

/-- The enemy-collision reset inside `SimpleLevel::update`: each enemy in turn
is tested against the current player rectangle and on overlap the player is
sent back to spawn with zero velocity. -/
def enemyResets (enemies : List Enemy) (pl : Player) : Player :=
  enemies.foldl
    (fun pl e =>
      if e.intersects pl.x pl.y pl.width pl.height then
        { pl with x := 50, y := 50, velocity_x := 0, velocity_y := 0 }
      else pl)
    pl

/-- `SimpleLevel::update`: the whole world tick. A no-op once the game is won;
otherwise player physics, enemy patrol, enemy-collision resets, camera
smoothing with a non-negativity clamp, and the goal check. -/
def SimpleLevel.update (lvl : SimpleLevel) (dt : ℚ) (input : InputState)
    (screenW screenH : ℚ) : SimpleLevel :=
  if lvl.game_won then lvl
  else
    let pl1 := lvl.player.update lvl.platforms dt input screenW screenH
    let enemies1 := lvl.enemies.map (fun e => e.update dt)
    let pl2 := enemyResets enemies1 pl1
    let target := pl2.x - screenW / 2
    let cam1 := lvl.camera_x + (target - lvl.camera_x) * (1 / 10)
    let cam2 := max cam1 0
    let won1 :=
      if pl2.intersects lvl.goal.x lvl.goal.y lvl.goal.width lvl.goal.height then
        true
      else lvl.game_won
    { lvl with player := pl2, enemies := enemies1, camera_x := cam2, game_won := won1 }

/-- File-system effects of `GameRecorder::save_gif` (src/screenshot.rs),
recorded as an explicit trace instead of performed. -/
inductive FileOp where
  | create
  | newEncoder
  | setRepeat
  | writeFrame (data : List ℕ)
  deriving DecidableEq

/-- `GameRecorder` struct: captured frames are raw RGB byte rows. -/
structure GameRecorder where
  frames : List (List ℕ)
  width : ℕ
  height : ℕ
  frame_delay : ℕ
  deriving DecidableEq

/-- `GameRecorder::new`: milliseconds are converted to hundredths of a second. -/
def GameRecorder.new (frame_delay_ms : ℕ) : GameRecorder :=
  { frames := [], width := 0, height := 0, frame_delay := frame_delay_ms / 10 }

/-- `GameRecorder::frame_count`. -/
def GameRecorder.frame_count (r : GameRecorder) : ℕ := r.frames.length

/-- `GameRecorder::save_gif`: an early error return when no frames were
captured, before any file operation; otherwise create the file, build the
encoder, set the repeat mode and write every frame. The returned list is the
trace of attempted file operations. -/
def GameRecorder.save_gif (r : GameRecorder) : List FileOp × Except String Unit :=
  if r.frames.isEmpty then
    ([], Except.error ("No frames captured"))
  else
    (FileOp.create :: FileOp.newEncoder :: FileOp.setRepeat ::
       r.frames.map FileOp.writeFrame,
     Except.ok ())

/-! ### Helper lemmas about the update phases -/

theorem vertLoop_velocity_x (platforms : List Platform) (newY : ℚ) (p : Player)
    (c : Bool) : (vertLoop platforms newY p c).1.velocity_x = p.velocity_x := by
  induction platforms generalizing p c with
  | nil => rfl
  | cons plat rest ih =>
    unfold vertLoop
    split_ifs <;> exact ih ..

theorem vertLoop_x (platforms : List Platform) (newY : ℚ) (p : Player)
    (c : Bool) : (vertLoop platforms newY p c).1.x = p.x := by
  induction platforms generalizing p c with
  | nil => rfl
  | cons plat rest ih =>
    unfold vertLoop
    split_ifs <;> exact ih ..

theorem vertLoop_width (platforms : List Platform) (newY : ℚ) (p : Player)
    (c : Bool) : (vertLoop platforms newY p c).1.width = p.width := by
  induction platforms generalizing p c with
  | nil => rfl
  | cons plat rest ih =>
    unfold vertLoop
    split_ifs <;> exact ih ..

theorem verticalPass_velocity_x (platforms : List Platform) (newY : ℚ) (p : Player) :
    (verticalPass platforms newY p).velocity_x = p.velocity_x := by
  simp only [verticalPass]
  split_ifs <;> simpa using vertLoop_velocity_x platforms newY { p with on_ground := false } true

theorem verticalPass_x (platforms : List Platform) (newY : ℚ) (p : Player) :
    (verticalPass platforms newY p).x = p.x := by
  simp only [verticalPass]
  split_ifs <;> simpa using vertLoop_x platforms newY { p with on_ground := false } true

theorem verticalPass_width (platforms : List Platform) (newY : ℚ) (p : Player) :
    (verticalPass platforms newY p).width = p.width := by
  simp only [verticalPass]
  split_ifs <;> simpa using vertLoop_width platforms newY { p with on_ground := false } true

theorem handle_input_width (p : Player) (input : InputState) :
    (p.handle_input input).width = p.width := by
  simp only [Player.handle_input]
  split_ifs <;> rfl

theorem applyGravity_width (dt : ℚ) (p : Player) :
    (applyGravity dt p).width = p.width := by
  simp only [applyGravity]
  split_ifs <;> rfl

theorem horizontalPass_width (platforms : List Platform) (newX : ℚ) (p : Player) :
    (horizontalPass platforms newX p).width = p.width := by
  simp only [horizontalPass]
  split_ifs <;> rfl

theorem applyFriction_x (p : Player) : (applyFriction p).x = p.x := by
  simp only [applyFriction]
  split_ifs <;> rfl

theorem update_animation_state_x (p : Player) :
    (p.update_animation_state).x = p.x := by
  simp only [Player.update_animation_state]
  split_ifs <;> rfl

/-! ### C6 -/

/-- C6: the AABB test of the code uses strict inequalities on all four
comparisons, so for (nondegenerate) rectangles it returns true exactly when
the overlap extents on both axes are positive; in particular rectangles that
merely touch on an edge (zero-width or zero-height overlap) do not intersect,
and rectangles with positive-area overlap do. Stated for both
`Platform.intersects` and `Player.intersects`. -/
theorem c6_strict_intersects (pl : Platform) (p : Player) (x y w h : ℚ)
    (hw : 0 < w) (hh : 0 < h) (hplw : 0 < pl.width) (hplh : 0 < pl.height)
    (hpw : 0 < p.width) (hph : 0 < p.height) :
    (pl.intersects x y w h = true ↔
      max x pl.x < min (x + w) (pl.x + pl.width) ∧
      max y pl.y < min (y + h) (pl.y + pl.height)) ∧
    (p.intersects x y w h = true ↔
      max p.x x < min (p.x + p.width) (x + w) ∧
      max p.y y < min (p.y + p.height) (y + h)) := by
  constructor
  · rw [Platform.intersects]
    simp only [Bool.and_eq_true, decide_eq_true_eq, gt_iff_lt, max_lt_iff, lt_min_iff]
    constructor
    · rintro ⟨⟨⟨h1, h2⟩, h3⟩, h4⟩
      refine ⟨⟨⟨?_, ?_⟩, ?_, ?_⟩, ⟨?_, ?_⟩, ?_, ?_⟩ <;> linarith
    · rintro ⟨⟨⟨a1, a2⟩, a3, a4⟩, ⟨b1, b2⟩, b3, b4⟩
      refine ⟨⟨⟨?_, ?_⟩, ?_⟩, ?_⟩ <;> linarith
  · rw [Player.intersects]
    simp only [Bool.and_eq_true, decide_eq_true_eq, gt_iff_lt, max_lt_iff, lt_min_iff]
    constructor
    · rintro ⟨⟨⟨h1, h2⟩, h3⟩, h4⟩
      refine ⟨⟨⟨?_, ?_⟩, ?_, ?_⟩, ⟨?_, ?_⟩, ?_, ?_⟩ <;> linarith
    · rintro ⟨⟨⟨a1, a2⟩, a3, a4⟩, ⟨b1, b2⟩, b3, b4⟩
      refine ⟨⟨⟨?_, ?_⟩, ?_⟩, ?_⟩ <;> linarith

/-- Witness for C6 at a concrete positive-overlap pair; the edge-to-edge pair
of the spec, platforms at x=0 and x=10 with width 10, is checked not to
intersect via the characterization (overlap extent is zero, not positive). -/
theorem c6_strict_intersects_witness :
    ((0 : ℚ) < 10 ∧ (0 : ℚ) < 10 ∧
      (Platform.new 5 5 10 10).width > 0 ∧ (Platform.new 5 5 10 10).height > 0) ∧
    ((Platform.new 5 5 10 10).intersects 0 0 10 10 = true ↔
      max (0 : ℚ) (Platform.new 5 5 10 10).x <
        min ((0 : ℚ) + 10) ((Platform.new 5 5 10 10).x + (Platform.new 5 5 10 10).width) ∧
      max (0 : ℚ) (Platform.new 5 5 10 10).y <
        min ((0 : ℚ) + 10) ((Platform.new 5 5 10 10).y + (Platform.new 5 5 10 10).height)) :=
  ⟨⟨by norm_num, by norm_num, by norm_num [Platform.new], by norm_num [Platform.new]⟩,
   (c6_strict_intersects (Platform.new 5 5 10 10) (Player.new 0 0) 0 0 10 10
      (by norm_num) (by norm_num) (by norm_num [Platform.new]) (by norm_num [Platform.new])
      (by norm_num [Player.new, PLAYER_SIZE]) (by norm_num [Player.new, PLAYER_SIZE])).1⟩

/-! ### C2 -/

/-- C2: in the horizontal phase of the player update, with
newX = x + velocity_x * dt, if the player rectangle at (newX, current y)
intersects any platform then x is left unchanged and velocity_x is zeroed;
if no platform intersects there, x becomes exactly newX and velocity_x is
kept. -/
theorem c2_horizontal_resolution (p : Player) (platforms : List Platform) (dt : ℚ) :
    ((∃ plat ∈ platforms,
        plat.intersects (p.x + p.velocity_x * dt) p.y p.width p.height = true) →
      (horizontalPass platforms (p.x + p.velocity_x * dt) p).x = p.x ∧
      (horizontalPass platforms (p.x + p.velocity_x * dt) p).velocity_x = 0) ∧
    ((∀ plat ∈ platforms,
        ¬ plat.intersects (p.x + p.velocity_x * dt) p.y p.width p.height = true) →
      (horizontalPass platforms (p.x + p.velocity_x * dt) p).x = p.x + p.velocity_x * dt ∧
      (horizontalPass platforms (p.x + p.velocity_x * dt) p).velocity_x = p.velocity_x) := by
  constructor
  · intro hex
    have hany : platforms.any
        (fun plat => plat.intersects (p.x + p.velocity_x * dt) p.y p.width p.height) = true := by
      simpa [List.any_eq_true] using hex
    simp only [horizontalPass, hany]
    exact ⟨rfl, rfl⟩
  · intro hall
    have hany : platforms.any
        (fun plat => plat.intersects (p.x + p.velocity_x * dt) p.y p.width p.height) = false := by
      simp only [List.any_eq_false]
      intro plat hmem
      simpa using hall plat hmem
    simp only [horizontalPass, hany]
    exact ⟨rfl, rfl⟩

/-- Witness for C2: a player moving right into a wall platform is blocked,
keeps its x and loses its horizontal velocity. -/
theorem c2_horizontal_resolution_witness :
    (∃ plat ∈ [Platform.new 110 0 20 20],
        plat.intersects ((Player.new 100 0).x + (Player.new 100 0).velocity_x * 1)
          (Player.new 100 0).y (Player.new 100 0).width (Player.new 100 0).height = true) ∧
    (horizontalPass [Platform.new 110 0 20 20]
        ((Player.new 100 0).x + (Player.new 100 0).velocity_x * 1) (Player.new 100 0)).x =
      (Player.new 100 0).x ∧
    (horizontalPass [Platform.new 110 0 20 20]
        ((Player.new 100 0).x + (Player.new 100 0).velocity_x * 1) (Player.new 100 0)).velocity_x = 0 :=
  have hmem : Platform.new 110 0 20 20 ∈ [Platform.new 110 0 20 20] ∧
      (Platform.new 110 0 20 20).intersects
        ((Player.new 100 0).x + (Player.new 100 0).velocity_x * 1)
        (Player.new 100 0).y (Player.new 100 0).width (Player.new 100 0).height = true := by
    refine ⟨List.mem_cons_self .., ?_⟩
    norm_num [Platform.intersects, Platform.new, Player.new, PLAYER_SIZE]
  ⟨⟨Platform.new 110 0 20 20, hmem⟩,
   (c2_horizontal_resolution (Player.new 100 0) [Platform.new 110 0 20 20] 1).1
     ⟨Platform.new 110 0 20 20, hmem⟩⟩

/-! ### C1 -/

theorem vertLoop_zero_vy (platforms : List Platform) (newY : ℚ) (p : Player)
    (c : Bool) (h : p.velocity_y = 0) : vertLoop platforms newY p c = (p, c) := by
  induction platforms with
  | nil => rfl
  | cons plat rest ih =>
    unfold vertLoop
    have h1 : ¬(p.velocity_y > 0 ∧ p.y ≤ plat.y) := by
      rintro ⟨hgt, _⟩
      rw [h] at hgt
      exact lt_irrefl 0 hgt
    have h2 : ¬(p.velocity_y < 0 ∧ p.y ≥ plat.y + plat.height) := by
      rintro ⟨hlt, _⟩
      rw [h] at hlt
      exact lt_irrefl 0 hlt
    by_cases hint : plat.intersects p.x newY p.width p.height = true
    · rw [if_pos hint, if_neg h1, if_neg h2]
      exact ih
    · rw [if_neg hint]
      exact ih

theorem vertLoop_skip (l1 rest : List Platform) (newY : ℚ) (p : Player) (c : Bool)
    (hvy : 0 < p.velocity_y)
    (hno : ∀ q ∈ l1, ¬(q.intersects p.x newY p.width p.height = true ∧ p.y ≤ q.y)) :
    vertLoop (l1 ++ rest) newY p c = vertLoop rest newY p c := by
  induction l1 with
  | nil => rfl
  | cons q l ih =>
    have hq := hno q (List.mem_cons_self ..)
    have htail : ∀ r ∈ l, ¬(r.intersects p.x newY p.width p.height = true ∧ p.y ≤ r.y) :=
      fun r hr => hno r (List.mem_cons_of_mem _ hr)
    rw [List.cons_append]
    conv_lhs => unfold vertLoop
    have h2 : ¬(p.velocity_y < 0 ∧ p.y ≥ q.y + q.height) := by
      rintro ⟨hlt, _⟩
      exact absurd hvy (not_lt.mpr hlt.le)
    by_cases hint : q.intersects p.x newY p.width p.height = true
    · have h1 : ¬(p.velocity_y > 0 ∧ p.y ≤ q.y) := by
        rintro ⟨_, hle⟩
        exact hq ⟨hint, hle⟩
      rw [if_pos hint, if_neg h1, if_neg h2]
      exact ih htail
    · rw [if_neg hint]
      exact ih htail

/-- C1 (amended): in the vertical phase, for the FIRST platform in list order
that intersects the player rectangle at (resolved x, newY) and has the
pre-update top at or below it (p.y ≤ plat.y), when velocity_y > 0 the phase
snaps y to platform top minus the player height, zeroes velocity_y and sets
on_ground; vertical movement to newY is cancelled. Later qualifying platforms
are skipped because velocity_y has already been zeroed. -/
theorem c1_first_landing (p : Player) (l1 l2 : List Platform) (plat : Platform)
    (newY : ℚ) (hvy : 0 < p.velocity_y)
    (hint : plat.intersects p.x newY p.width p.height = true)
    (htop : p.y ≤ plat.y)
    (hfirst : ∀ q ∈ l1, ¬(q.intersects p.x newY p.width p.height = true ∧ p.y ≤ q.y)) :
    (verticalPass (l1 ++ plat :: l2) newY p).y = plat.y - p.height ∧
    (verticalPass (l1 ++ plat :: l2) newY p).velocity_y = 0 ∧
    (verticalPass (l1 ++ plat :: l2) newY p).on_ground = true := by
  have hskip := vertLoop_skip l1 (plat :: l2) newY { p with on_ground := false } true hvy hfirst
  have hcond : ({ p with on_ground := false } : Player).velocity_y > 0 ∧
      ({ p with on_ground := false } : Player).y ≤ plat.y := ⟨hvy, htop⟩
  have hcons : vertLoop (plat :: l2) newY ({ p with on_ground := false } : Player) true =
      vertLoop l2 newY
        { p with y := plat.y - p.height, velocity_y := 0, on_ground := true } false := by
    conv_lhs => unfold vertLoop
    rw [if_pos hint, if_pos hcond]
  have hzero := vertLoop_zero_vy l2 newY
    { p with y := plat.y - p.height, velocity_y := 0, on_ground := true } false rfl
  simp only [verticalPass, hskip, hcons, hzero]
  simp

/-- C1 counterexample: the claim as stated fails when two overlapping
platforms with distinct tops both qualify; the player snaps to the first one
and the equations demanded for the second do not hold. -/
theorem c1_counterexample :
    ¬ (∀ (p : Player) (platforms : List Platform) (newY : ℚ),
        ∀ plat ∈ platforms,
          plat.intersects p.x newY p.width p.height = true →
          0 < p.velocity_y → p.y ≤ plat.y →
          (verticalPass platforms newY p).y = plat.y - p.height ∧
          (verticalPass platforms newY p).velocity_y = 0 ∧
          (verticalPass platforms newY p).on_ground = true) := by
  intro hclaim
  have h := hclaim ⟨0, 0, 0, 10, false, 10, 10, true, AnimationState.Idle, 0⟩
      [Platform.new 0 8 10 10, Platform.new 0 12 10 10] 5 (Platform.new 0 12 10 10)
      (by simp) (by norm_num [Platform.intersects, Platform.new])
      (by norm_num) (by norm_num [Platform.new])
  have hy : (verticalPass [Platform.new 0 8 10 10, Platform.new 0 12 10 10] 5
      (⟨0, 0, 0, 10, false, 10, 10, true, AnimationState.Idle, 0⟩ : Player)).y = -2 := by
    norm_num [verticalPass, vertLoop, Platform.intersects, Platform.new]
  rw [hy] at h
  norm_num [Platform.new] at h

/-- Witness for C1 (amended): a single platform directly below a falling
player; the player lands exactly on its top. -/
theorem c1_first_landing_witness :
    (0 : ℚ) < (⟨0, 0, 0, 10, false, 10, 10, true, AnimationState.Idle, 0⟩ : Player).velocity_y ∧
    (verticalPass ([] ++ Platform.new 0 8 10 10 :: []) 5
      (⟨0, 0, 0, 10, false, 10, 10, true, AnimationState.Idle, 0⟩ : Player)).y =
        (Platform.new 0 8 10 10).y -
          (⟨0, 0, 0, 10, false, 10, 10, true, AnimationState.Idle, 0⟩ : Player).height ∧
    (verticalPass ([] ++ Platform.new 0 8 10 10 :: []) 5
      (⟨0, 0, 0, 10, false, 10, 10, true, AnimationState.Idle, 0⟩ : Player)).velocity_y = 0 ∧
    (verticalPass ([] ++ Platform.new 0 8 10 10 :: []) 5
      (⟨0, 0, 0, 10, false, 10, 10, true, AnimationState.Idle, 0⟩ : Player)).on_ground = true :=
  have hint : (Platform.new 0 8 10 10).intersects
      (⟨0, 0, 0, 10, false, 10, 10, true, AnimationState.Idle, 0⟩ : Player).x 5
      (⟨0, 0, 0, 10, false, 10, 10, true, AnimationState.Idle, 0⟩ : Player).width
      (⟨0, 0, 0, 10, false, 10, 10, true, AnimationState.Idle, 0⟩ : Player).height = true := by
    norm_num [Platform.intersects, Platform.new]
  ⟨by norm_num,
   c1_first_landing ⟨0, 0, 0, 10, false, 10, 10, true, AnimationState.Idle, 0⟩ [] []
     (Platform.new 0 8 10 10) 5 (by norm_num) hint (by norm_num [Platform.new])
     (by simp)⟩

/-! ### C9 -/

theorem vertLoop_ground_inv (platforms : List Platform) (newY : ℚ) (p : Player)
    (c : Bool) (h : p.on_ground = true → p.velocity_y = 0) :
    (vertLoop platforms newY p c).1.on_ground = true →
    (vertLoop platforms newY p c).1.velocity_y = 0 := by
  induction platforms generalizing p c with
  | nil => exact h
  | cons plat rest ih =>
    unfold vertLoop
    split_ifs with h1 h2 h3
    · exact ih _ _ (fun _ => rfl)
    · exact ih _ _ (fun _ => rfl)
    · exact ih _ _ h
    · exact ih _ _ h

theorem verticalPass_ground (platforms : List Platform) (newY : ℚ) (p : Player) :
    (verticalPass platforms newY p).on_ground = true →
    (verticalPass platforms newY p).velocity_y = 0 := by
  have hbase : ({ p with on_ground := false } : Player).on_ground = true →
      ({ p with on_ground := false } : Player).velocity_y = 0 := by
    intro hfalse
    simp at hfalse
  have hr := vertLoop_ground_inv platforms newY { p with on_ground := false } true hbase
  simp only [verticalPass]
  split_ifs with hc
  · exact hr
  · exact hr

theorem clampX_ground_inv (screenW : ℚ) (p : Player)
    (h : p.on_ground = true → p.velocity_y = 0) :
    (clampX screenW p).on_ground = true → (clampX screenW p).velocity_y = 0 := by
  simp only [clampX]
  split_ifs <;> exact h

theorem fallReset_ground_inv (screenH : ℚ) (p : Player)
    (h : p.on_ground = true → p.velocity_y = 0) :
    (fallReset screenH p).on_ground = true → (fallReset screenH p).velocity_y = 0 := by
  simp only [fallReset]
  split_ifs with hy
  · intro _
    rfl
  · exact h

theorem applyFriction_ground_inv (p : Player)
    (h : p.on_ground = true → p.velocity_y = 0) :
    (applyFriction p).on_ground = true → (applyFriction p).velocity_y = 0 := by
  simp only [applyFriction]
  split_ifs <;> exact h

theorem update_animation_state_ground_inv (p : Player)
    (h : p.on_ground = true → p.velocity_y = 0) :
    (p.update_animation_state).on_ground = true →
    (p.update_animation_state).velocity_y = 0 := by
  simp only [Player.update_animation_state]
  split_ifs <;> exact h

/-- C9: after any full player update, if on_ground is true then velocity_y is
zero: only the landing snap sets on_ground, and it zeroes velocity_y at the
same moment; no later step of the update makes velocity_y nonzero again. -/
theorem c9_grounded_zero_vy (p : Player) (platforms : List Platform) (dt : ℚ)
    (input : InputState) (screenW screenH : ℚ) :
    (p.update platforms dt input screenW screenH).on_ground = true →
    (p.update platforms dt input screenW screenH).velocity_y = 0 := by
  simp only [Player.update]
  exact update_animation_state_ground_inv _
    (applyFriction_ground_inv _
      (fallReset_ground_inv _ _
        (clampX_ground_inv _ _
          (verticalPass_ground _ _ _))))

/-- Witness for C9: a falling player lands on a platform during the update,
ends the tick grounded, and indeed has zero vertical velocity. -/
theorem c9_grounded_zero_vy_witness :
    ((⟨100, 385, 0, 10, false, 20, 20, true, AnimationState.Idle, 0⟩ : Player).update
        [Platform.new 0 400 800 20] (1 / 100) ⟨false, false, false⟩ 800 600).on_ground = true ∧
    ((⟨100, 385, 0, 10, false, 20, 20, true, AnimationState.Idle, 0⟩ : Player).update
        [Platform.new 0 400 800 20] (1 / 100) ⟨false, false, false⟩ 800 600).velocity_y = 0 :=
  have hg : ((⟨100, 385, 0, 10, false, 20, 20, true, AnimationState.Idle, 0⟩ : Player).update
      [Platform.new 0 400 800 20] (1 / 100) ⟨false, false, false⟩ 800 600).on_ground = true := by
    norm_num [Player.update, Player.handle_input, applyGravity, horizontalPass, verticalPass,
      vertLoop, clampX, fallReset, applyFriction, Player.update_animation_state,
      Platform.intersects, Platform.new, GRAVITY, JUMP_STRENGTH, PLAYER_SPEED]
  ⟨hg, c9_grounded_zero_vy ⟨100, 385, 0, 10, false, 20, 20, true, AnimationState.Idle, 0⟩
    [Platform.new 0 400 800 20] (1 / 100) ⟨false, false, false⟩ 800 600 hg⟩

/-! ### C5 -/

theorem handle_input_vx_zero (p : Player) (input : InputState)
    (h1 : input.move_left = false) (h2 : input.move_right = false) :
    (p.handle_input input).velocity_x = 0 := by
  simp only [Player.handle_input, h1, h2, Bool.false_eq_true, if_false]
  split_ifs <;> rfl

theorem applyGravity_velocity_x (dt : ℚ) (p : Player) :
    (applyGravity dt p).velocity_x = p.velocity_x := by
  simp only [applyGravity]
  split_ifs <;> rfl

theorem horizontalPass_vx_zero (platforms : List Platform) (newX : ℚ) (p : Player)
    (h : p.velocity_x = 0) : (horizontalPass platforms newX p).velocity_x = 0 := by
  simp only [horizontalPass]
  split_ifs
  · rfl
  · exact h

theorem clampX_vx_zero (screenW : ℚ) (p : Player) (h : p.velocity_x = 0) :
    (clampX screenW p).velocity_x = 0 := by
  simp only [clampX]
  split_ifs <;> first | rfl | exact h

theorem fallReset_vx_zero (screenH : ℚ) (p : Player) (h : p.velocity_x = 0) :
    (fallReset screenH p).velocity_x = 0 := by
  simp only [fallReset]
  split_ifs
  · rfl
  · exact h

theorem applyFriction_vx_zero (p : Player) (h : p.velocity_x = 0) :
    (applyFriction p).velocity_x = 0 := by
  simp only [applyFriction]
  split_ifs with hg
  · show p.velocity_x * (4 / 5) = 0
    rw [h, zero_mul]
  · exact h

theorem update_animation_state_velocity_x (p : Player) :
    (p.update_animation_state).velocity_x = p.velocity_x := by
  simp only [Player.update_animation_state]
  split_ifs <;> rfl

/-- C5 (amended): with no movement key held, the input-resolution step zeroes
velocity_x before friction is ever applied, so after every update (from ANY
starting state, grounded with vx = 100 included) velocity_x is exactly 0, not
100 * 0.8 ^ n. -/
theorem c5_no_input_zeroes_vx (p : Player) (platforms : List Platform) (dt : ℚ)
    (input : InputState) (screenW screenH : ℚ)
    (h1 : input.move_left = false) (h2 : input.move_right = false) :
    (p.update platforms dt input screenW screenH).velocity_x = 0 := by
  simp only [Player.update]
  rw [update_animation_state_velocity_x]
  exact applyFriction_vx_zero _
    (fallReset_vx_zero _ _
      (clampX_vx_zero _ _
        (by
          rw [verticalPass_velocity_x]
          exact horizontalPass_vx_zero _ _ _
            (by
              rw [applyGravity_velocity_x]
              exact handle_input_vx_zero p input h1 h2))))

/-- C5 counterexample: a grounded player standing on a platform with
velocity_x = 100, updated once with no key held, has velocity_x = 0 rather
than 100 * 0.8 = 80. -/
theorem c5_counterexample :
    (⟨100, 380, 100, 0, true, 20, 20, true, AnimationState.Idle, 0⟩ : Player).on_ground = true ∧
    (⟨100, 380, 100, 0, true, 20, 20, true, AnimationState.Idle, 0⟩ : Player).velocity_x = 100 ∧
    ¬ (((⟨100, 380, 100, 0, true, 20, 20, true, AnimationState.Idle, 0⟩ : Player).update
          [Platform.new 0 400 800 20] (1 / 60) ⟨false, false, false⟩ 800 600).velocity_x =
        100 * (4 / 5) ^ 1) := by
  refine ⟨rfl, rfl, ?_⟩
  have h : ((⟨100, 380, 100, 0, true, 20, 20, true, AnimationState.Idle, 0⟩ : Player).update
      [Platform.new 0 400 800 20] (1 / 60) ⟨false, false, false⟩ 800 600).velocity_x = 0 := by
    norm_num [Player.update, Player.handle_input, applyGravity, horizontalPass, verticalPass,
      vertLoop, clampX, fallReset, applyFriction, Player.update_animation_state,
      Platform.intersects, Platform.new, GRAVITY, JUMP_STRENGTH, PLAYER_SPEED]
  rw [h]
  norm_num

/-- Witness for C5 (amended): the same concrete grounded player, one tick with
no input, velocity_x ends at exactly 0. -/
theorem c5_no_input_zeroes_vx_witness :
    (⟨false, false, false⟩ : InputState).move_left = false ∧
    (⟨false, false, false⟩ : InputState).move_right = false ∧
    ((⟨100, 380, 100, 0, true, 20, 20, true, AnimationState.Idle, 0⟩ : Player).update
        [Platform.new 0 400 800 20] (1 / 60) ⟨false, false, false⟩ 800 600).velocity_x = 0 :=
  ⟨rfl, rfl, c5_no_input_zeroes_vx
    ⟨100, 380, 100, 0, true, 20, 20, true, AnimationState.Idle, 0⟩
    [Platform.new 0 400 800 20] (1 / 60) ⟨false, false, false⟩ 800 600 rfl rfl⟩

/-! ### C4 -/

/-- C4 (amended): the patrol update moves by speed*dt and flips direction on
reaching or crossing the corresponding patrol bound, but it does NOT clamp x
to the bound: starting from x in [patrol_start, patrol_end] the updated x is
only guaranteed to lie in the widened interval
[patrol_start - speed*dt, patrol_end + speed*dt]. -/
theorem c4_patrol_no_clamp (e : Enemy) (dt : ℚ) (hs : 0 ≤ e.speed) (hdt : 0 ≤ dt)
    (hlo : e.patrol_start ≤ e.x) (hhi : e.x ≤ e.patrol_end) :
    (e.patrol_start - e.speed * dt ≤ (e.update dt).x ∧
      (e.update dt).x ≤ e.patrol_end + e.speed * dt) ∧
    (e.direction = EnemyDirection.Right →
      (e.update dt).x = e.x + e.speed * dt ∧
      ((e.update dt).direction = EnemyDirection.Left ↔ e.patrol_end ≤ e.x + e.speed * dt)) ∧
    (e.direction = EnemyDirection.Left →
      (e.update dt).x = e.x - e.speed * dt ∧
      ((e.update dt).direction = EnemyDirection.Right ↔ e.x - e.speed * dt ≤ e.patrol_start)) := by
  have hsd : 0 ≤ e.speed * dt := mul_nonneg hs hdt
  cases hdir : e.direction with
  | Right =>
    simp only [Enemy.update, hdir]
    split_ifs with hflip
    · exact ⟨⟨by dsimp only; linarith, by dsimp only; linarith⟩,
        fun _ => ⟨rfl, iff_of_true rfl hflip⟩,
        fun hL => hL.elim⟩
    · exact ⟨⟨by dsimp only; linarith, by dsimp only; linarith⟩,
        fun _ => ⟨rfl, iff_of_false (by simp [hdir]) hflip⟩,
        fun hL => hL.elim⟩
  | Left =>
    simp only [Enemy.update, hdir]
    split_ifs with hflip
    · exact ⟨⟨by dsimp only; linarith, by dsimp only; linarith⟩,
        fun hR => hR.elim,
        fun _ => ⟨rfl, iff_of_true rfl hflip⟩⟩
    · exact ⟨⟨by dsimp only; linarith, by dsimp only; linarith⟩,
        fun hR => hR.elim,
        fun _ => ⟨rfl, iff_of_false (by simp [hdir]) hflip⟩⟩

/-- C4 counterexample: a patrol agent at x = patrol_end with a large step
overshoots the bound instead of being clamped to it. -/
theorem c4_counterexample :
    (Enemy.new 10 0 0 10).patrol_start ≤ (Enemy.new 10 0 0 10).x ∧
    (Enemy.new 10 0 0 10).x ≤ (Enemy.new 10 0 0 10).patrol_end ∧
    ¬ (((Enemy.new 10 0 0 10).update 1).x ≤ (Enemy.new 10 0 0 10).patrol_end) := by
  refine ⟨by norm_num [Enemy.new], by norm_num [Enemy.new], ?_⟩
  have hx : ((Enemy.new 10 0 0 10).update 1).x = 40 := by
    norm_num [Enemy.update, Enemy.new]
  rw [hx]
  norm_num [Enemy.new]

/-- Witness for C4 (amended): the spec's own example, patrol 100..200 at
speed 50 is approximated with the constructed speed 30 enemy; one update from
x = 100 stays within the widened interval. -/
theorem c4_patrol_no_clamp_witness :
    0 ≤ (Enemy.new 100 0 100 200).speed ∧ (0 : ℚ) ≤ 1 ∧
    (Enemy.new 100 0 100 200).patrol_start ≤ (Enemy.new 100 0 100 200).x ∧
    (Enemy.new 100 0 100 200).x ≤ (Enemy.new 100 0 100 200).patrol_end ∧
    ((Enemy.new 100 0 100 200).patrol_start - (Enemy.new 100 0 100 200).speed * 1 ≤
        ((Enemy.new 100 0 100 200).update 1).x ∧
      ((Enemy.new 100 0 100 200).update 1).x ≤
        (Enemy.new 100 0 100 200).patrol_end + (Enemy.new 100 0 100 200).speed * 1) :=
  ⟨by norm_num [Enemy.new], by norm_num, by norm_num [Enemy.new], by norm_num [Enemy.new],
   (c4_patrol_no_clamp (Enemy.new 100 0 100 200) 1 (by norm_num [Enemy.new]) (by norm_num)
      (by norm_num [Enemy.new]) (by norm_num [Enemy.new])).1⟩

/-! ### C7 -/

theorem clampX_width (screenW : ℚ) (p : Player) : (clampX screenW p).width = p.width := by
  simp only [clampX]
  split_ifs <;> rfl

theorem fallReset_width (screenH : ℚ) (p : Player) :
    (fallReset screenH p).width = p.width := by
  simp only [fallReset]
  split_ifs <;> rfl

theorem applyFriction_width (p : Player) : (applyFriction p).width = p.width := by
  simp only [applyFriction]
  split_ifs <;> rfl

theorem update_animation_state_width (p : Player) :
    (p.update_animation_state).width = p.width := by
  simp only [Player.update_animation_state]
  split_ifs <;> rfl

theorem update_x_eq (p : Player) (platforms : List Platform) (dt : ℚ)
    (input : InputState) (screenW screenH : ℚ) :
    (p.update platforms dt input screenW screenH).x =
      (fallReset screenH (clampX screenW (verticalPass platforms
        ((applyGravity dt (p.handle_input input)).y +
          (applyGravity dt (p.handle_input input)).velocity_y * dt)
        (horizontalPass platforms
          ((applyGravity dt (p.handle_input input)).x +
            (applyGravity dt (p.handle_input input)).velocity_x * dt)
          (applyGravity dt (p.handle_input input)))))).x := by
  simp only [Player.update]
  rw [update_animation_state_x]
  exact applyFriction_x _

theorem clampX_fallReset_x_bound (screenW screenH : ℚ) (p : Player)
    (h : p.width + 50 ≤ screenW) :
    0 ≤ (fallReset screenH (clampX screenW p)).x ∧
    (fallReset screenH (clampX screenW p)).x ≤ screenW - p.width := by
  simp only [clampX, fallReset]
  split_ifs <;> (try dsimp only at *) <;> constructor <;> linarith

/-- C7 (amended): provided the screen is at least 50 units wider than the
player (true for the real 20-unit player on any screen of width at least 70),
after every update 0 ≤ x ≤ screen_width − width, including ticks on which the
fall-through reset teleports the player to (50, 50). Without that proviso the
claim fails (see the counterexample): the reset runs after the clamp and can
put x = 50 outside the bound. -/
theorem c7_x_bounds (p : Player) (platforms : List Platform) (dt : ℚ)
    (input : InputState) (screenW screenH : ℚ) (h : p.width + 50 ≤ screenW) :
    0 ≤ (p.update platforms dt input screenW screenH).x ∧
    (p.update platforms dt input screenW screenH).x ≤ screenW - p.width := by
  rw [update_x_eq]
  have hw : (verticalPass platforms
      ((applyGravity dt (p.handle_input input)).y +
        (applyGravity dt (p.handle_input input)).velocity_y * dt)
      (horizontalPass platforms
        ((applyGravity dt (p.handle_input input)).x +
          (applyGravity dt (p.handle_input input)).velocity_x * dt)
        (applyGravity dt (p.handle_input input)))).width = p.width := by
    rw [verticalPass_width, horizontalPass_width, applyGravity_width, handle_input_width]
  have hb := clampX_fallReset_x_bound screenW screenH
    (verticalPass platforms
      ((applyGravity dt (p.handle_input input)).y +
        (applyGravity dt (p.handle_input input)).velocity_y * dt)
      (horizontalPass platforms
        ((applyGravity dt (p.handle_input input)).x +
          (applyGravity dt (p.handle_input input)).velocity_x * dt)
        (applyGravity dt (p.handle_input input))))
    (by rw [hw]; exact h)
  rw [hw] at hb
  exact hb

/-- C7 counterexample: on a 60-unit-wide screen a player falling off the
world is reset to x = 50, which is outside [0, screen_width − width] = [0,
40]; the claim as stated (for every player state and dt) is false. -/
theorem c7_counterexample :
    ¬ (0 ≤ ((⟨0, 700, 0, 0, false, 20, 20, true, AnimationState.Idle, 0⟩ : Player).update
          [] 0 ⟨false, false, false⟩ 60 600).x ∧
       ((⟨0, 700, 0, 0, false, 20, 20, true, AnimationState.Idle, 0⟩ : Player).update
          [] 0 ⟨false, false, false⟩ 60 600).x ≤
        60 - (⟨0, 700, 0, 0, false, 20, 20, true, AnimationState.Idle, 0⟩ : Player).width) := by
  have hx : ((⟨0, 700, 0, 0, false, 20, 20, true, AnimationState.Idle, 0⟩ : Player).update
      [] 0 ⟨false, false, false⟩ 60 600).x = 50 := by
    norm_num [Player.update, Player.handle_input, applyGravity, horizontalPass, verticalPass,
      vertLoop, clampX, fallReset, applyFriction, Player.update_animation_state,
      GRAVITY, JUMP_STRENGTH, PLAYER_SPEED]
  rw [hx]
  norm_num

/-- Witness for C7 (amended): the real 20-unit player on an 800-unit screen;
the post-update x lies within the horizontal bounds. -/
theorem c7_x_bounds_witness :
    (⟨0, 700, 0, 0, false, 20, 20, true, AnimationState.Idle, 0⟩ : Player).width + 50 ≤ 800 ∧
    (0 ≤ ((⟨0, 700, 0, 0, false, 20, 20, true, AnimationState.Idle, 0⟩ : Player).update
        [] 0 ⟨false, false, false⟩ 800 600).x ∧
      ((⟨0, 700, 0, 0, false, 20, 20, true, AnimationState.Idle, 0⟩ : Player).update
        [] 0 ⟨false, false, false⟩ 800 600).x ≤
       800 - (⟨0, 700, 0, 0, false, 20, 20, true, AnimationState.Idle, 0⟩ : Player).width) :=
  ⟨by norm_num, c7_x_bounds ⟨0, 700, 0, 0, false, 20, 20, true, AnimationState.Idle, 0⟩
    [] 0 ⟨false, false, false⟩ 800 600 (by norm_num)⟩

/-! ### C3 -/

/-- C3: the won flag is monotonic and gating. When game_won is true the world
update is a complete no-op (so won never returns to false), and when game_won
is false and the player rectangle at the end of the tick overlaps the goal
rectangle, game_won becomes true. -/
theorem c3_won_monotonic_gating (lvl : SimpleLevel) (dt : ℚ) (input : InputState)
    (screenW screenH : ℚ) :
    (lvl.game_won = true → lvl.update dt input screenW screenH = lvl) ∧
    (lvl.game_won = false →
      (lvl.update dt input screenW screenH).player.intersects
          lvl.goal.x lvl.goal.y lvl.goal.width lvl.goal.height = true →
      (lvl.update dt input screenW screenH).game_won = true) := by
  constructor
  · intro h
    simp [SimpleLevel.update, h]
  · intro h hint
    simp only [SimpleLevel.update, h, Bool.false_eq_true, if_false] at hint ⊢
    split_ifs
    · rfl

/-- Witness for C3: a concrete already-won world is left exactly unchanged by
an update. -/
theorem c3_won_monotonic_gating_witness :
    (⟨Player.new 0 0, [], Goal.new 0 0, [], [], true, 0⟩ : SimpleLevel).game_won = true ∧
    (⟨Player.new 0 0, [], Goal.new 0 0, [], [], true, 0⟩ : SimpleLevel).update 1
        ⟨false, false, false⟩ 800 600 =
      (⟨Player.new 0 0, [], Goal.new 0 0, [], [], true, 0⟩ : SimpleLevel) :=
  ⟨rfl, (c3_won_monotonic_gating ⟨Player.new 0 0, [], Goal.new 0 0, [], [], true, 0⟩ 1
    ⟨false, false, false⟩ 800 600).1 rfl⟩

/-! ### C8 -/

/-- C8: the camera offset never goes negative: from any world state with
camera_x ≥ 0, after a world update camera_x is still ≥ 0 — the offset is
first moved by (target − offset) * 0.1 and then clamped to max(·, 0),
regardless of the player position. -/
theorem c8_camera_nonneg (lvl : SimpleLevel) (dt : ℚ) (input : InputState)
    (screenW screenH : ℚ) (h : 0 ≤ lvl.camera_x) :
    0 ≤ (lvl.update dt input screenW screenH).camera_x := by
  simp only [SimpleLevel.update]
  split_ifs with hw
  · exact h
  all_goals exact le_max_right _ 0

/-- Witness for C8: the freshly constructed level (camera_x = 0, player far
left of screen center so the raw target is negative) keeps camera_x ≥ 0
after one update. -/
theorem c8_camera_nonneg_witness :
    0 ≤ SimpleLevel.new.camera_x ∧
    0 ≤ (SimpleLevel.new.update (1 / 60) ⟨false, false, false⟩ 800 600).camera_x :=
  ⟨by norm_num [SimpleLevel.new],
   c8_camera_nonneg SimpleLevel.new (1 / 60) ⟨false, false, false⟩ 800 600
     (by norm_num [SimpleLevel.new])⟩

/-! ### C10 -/

/-- C10: saving a GIF with zero captured frames returns the empty-capture
error to the caller before any file operation is attempted (the trace of
attempted file operations is empty). -/
theorem c10_empty_recorder_errors (r : GameRecorder) (h : r.frame_count = 0) :
    r.save_gif = ([], Except.error ("No frames captured")) := by
  have hemp : r.frames.isEmpty = true := by
    cases hf : r.frames with
    | nil => rfl
    | cons a l =>
      rw [GameRecorder.frame_count, hf] at h
      simp at h
  simp [GameRecorder.save_gif, hemp]

/-- Witness for C10: a fresh recorder has zero frames and save_gif returns
the error with no file operations performed. -/
theorem c10_empty_recorder_errors_witness :
    (GameRecorder.new 100).frame_count = 0 ∧
    (GameRecorder.new 100).save_gif = ([], Except.error ("No frames captured")) :=
  ⟨rfl, c10_empty_recorder_errors (GameRecorder.new 100) rfl⟩

end Mario
